import Mathlib

/-!
Shallow embedding of the OpenAPI import workflow of `http2mcp`
(`internal/apiserver/handler/openapi.go`, method `HandleImport`).

The handler orchestrates four external collaborators:
  * a pure Converter (`pkg/openapi`): `Convert` / `ConvertWithOptions`,
  * a configuration store (`storage.Store.Create`),
  * an update notifier (`notifier.Notifier.NotifyUpdate`),
  * a database (`database.Database`) which `HandleImport` never touches.

The collaborators live outside the repository slice under verification, so
they are abstracted as function-valued fields over abstract types `Ctx`
(the request context), `Cfg` (the `config.MCPConfig` produced by the
Converter) and `Db` (the injected database).  Logging (`zap.Logger`) is a
pure side channel and is omitted.  The embedding returns the terminal
response together with the ordered trace of collaborator calls, so that
call counts, call order and the arguments passed can be stated.
-/

/-- Kind of error response emitted via `i18n.RespondWithError`:
`ErrBadRequest` or `ErrInternalServer`. -/
inductive ErrKind : Type
  | badRequest
  | internalServer
deriving DecidableEq, Repr

/-- Terminal response of one `HandleImport` invocation.  `respondError`
models `i18n.RespondWithError(c, kind.WithParam("Reason", reason))`;
`created` models `i18n.Created(...).With("status","success").With("config", config).Send(c)`.
Only the `created` response carries a configuration. -/
inductive Outcome (Cfg : Type) : Type
  | respondError (kind : ErrKind) (reason : String)
  | created (cfg : Cfg)
deriving DecidableEq, Repr

/-- One observable call to an external collaborator, in the order the
handler makes them.  `dbCall` is the marker for any use of the injected
`database.Database`; the trace never contains it. -/
inductive Event (Ctx Cfg : Type) : Type
  | dbCall
  | convertCall (bytes : List Nat)
  | convertWithOptionsCall (bytes : List Nat) (tenant pfx : String)
  | createCall (ctx : Ctx) (cfg : Cfg)
  | notifyCall (ctx : Ctx) (cfg : Cfg)
deriving DecidableEq, Repr

/-- The pure converter obtained from `openapi.NewConverter()`:
`Convert(content)` and `ConvertWithOptions(content, tenant, prefix)`,
each returning a configuration or an error string. -/
structure Converter (Cfg : Type) : Type where
  Convert : List Nat → Except String Cfg
  ConvertWithOptions : List Nat → String → String → Except String Cfg

/-- The `OpenAPI` handler struct: injected database, store and notifier
(`zap.Logger` omitted).  `Create` and `NotifyUpdate` are the single
methods the handler calls on store and notifier; each is modelled as a
function of the context and configuration returning `ok` or an error. -/
structure OpenAPI (Db Ctx Cfg : Type) : Type where
  db : Db
  store : Ctx → Cfg → Except String Unit
  notifier : Ctx → Cfg → Except String Unit

/-- The multipart file returned by `c.FormFile("file")`: its name, its
announced `Size`, and the result of `file.Open()` followed by the single
`f.Read(content)` call — an open error, a read error, or the chunk of
bytes the one `Read` call deposited into the buffer. -/
structure FormFile : Type where
  Filename : String
  Size : Nat
  openResult : Except String (Except String (List Nat))
deriving Repr

/-- One import request as the handler sees it: the outcome of
`c.FormFile("file")`, the two form strings `c.PostForm("tenantId")` and
`c.PostForm("prefix")`, and `c.Request.Context()`. -/
structure ImportRequest (Ctx : Type) : Type where
  formFile : Except String FormFile
  tenantId : String
  pathPfx : String
  requestContext : Ctx

/-- Buffer contents after `content := make([]byte, size)` (zero-filled)
and a single `f.Read(content)` that wrote `chunk` into its front: the
chunk truncated to the buffer length, with the untouched remainder still
zero. -/
def readIntoBuffer (size : Nat) (chunk : List Nat) : List Nat :=
  chunk.take size ++ List.replicate (size - chunk.length) 0

/-- Conversion step of the handler, lines 76–82 of `openapi.go`:
`Convert(content)` when both `tenantId` and `prefix` are empty, else
`ConvertWithOptions(content, tenant, prefix)` with both strings passed
verbatim. -/
def conversionResult (conv : Converter Cfg) (content : List Nat)
    (tenant pfx : String) : Except String Cfg :=
  if tenant = "" ∧ pfx = "" then conv.Convert content
  else conv.ConvertWithOptions content tenant pfx

/-- Trace event of the conversion step: which converter method was called
and with which arguments. -/
def conversionEvent (content : List Nat) (tenant pfx : String) :
    Event Ctx Cfg :=
  if tenant = "" ∧ pfx = "" then Event.convertCall content
  else Event.convertWithOptionsCall content tenant pfx

/-- Lines 76–118 of `openapi.go`: the pipeline run once the buffer has
been filled — conversion, `h.store.Create(c.Request.Context(), config)`,
`h.notifier.NotifyUpdate(c.Request.Context(), config)`, stopping at the
first failure with the corresponding error response. -/
def importPipeline (conv : Converter Cfg) (h : OpenAPI Db Ctx Cfg)
    (content : List Nat) (tenant pfx : String) (ctx : Ctx) :
    Outcome Cfg × List (Event Ctx Cfg) :=
  match conversionResult conv content tenant pfx with
  | .error e =>
      (.respondError .badRequest
        ("Failed to convert OpenAPI specification: " ++ e),
       [conversionEvent content tenant pfx])
  | .ok config =>
    match h.store ctx config with
    | .error e =>
        (.respondError .internalServer
          ("Failed to create MCP server: " ++ e),
         [conversionEvent content tenant pfx, .createCall ctx config])
    | .ok _ =>
      match h.notifier ctx config with
      | .error e =>
          (.respondError .internalServer
            ("Failed to notify gateway: " ++ e),
           [conversionEvent content tenant pfx, .createCall ctx config,
            .notifyCall ctx config])
      | .ok _ =>
          (.created config,
           [conversionEvent content tenant pfx, .createCall ctx config,
            .notifyCall ctx config])

/-- Shallow embedding of `(h *OpenAPI) HandleImport(c *gin.Context)`:
returns the terminal response and the ordered trace of collaborator
calls.  Form-file retrieval, open and the single read happen first
(lines 37–67); the remainder is `importPipeline`. -/
def HandleImport (conv : Converter Cfg) (h : OpenAPI Db Ctx Cfg)
    (req : ImportRequest Ctx) : Outcome Cfg × List (Event Ctx Cfg) :=
  match req.formFile with
  | .error e => (.respondError .badRequest ("Failed to get file: " ++ e), [])
  | .ok file =>
    match file.openResult with
    | .error e =>
        (.respondError .internalServer ("Failed to open file: " ++ e), [])
    | .ok (.error e) =>
        (.respondError .internalServer ("Failed to read file: " ++ e), [])
    | .ok (.ok chunk) =>
      importPipeline conv h (readIntoBuffer file.Size chunk)
        req.tenantId req.pathPfx req.requestContext

/-- Predicate selecting the converter-call events of a trace. -/
def isConverterEvent : Event Ctx Cfg → Bool
  | .convertCall _ => true
  | .convertWithOptionsCall _ _ _ => true
  | _ => false

/-- Converter calls of a trace, in order. -/
def converterEvents (tr : List (Event Ctx Cfg)) : List (Event Ctx Cfg) :=
  tr.filter isConverterEvent

/-- Predicate selecting `Create` calls. -/
def isCreateEvent : Event Ctx Cfg → Bool
  | .createCall _ _ => true
  | _ => false

/-- `Create` calls of a trace, in order. -/
def createEvents (tr : List (Event Ctx Cfg)) : List (Event Ctx Cfg) :=
  tr.filter isCreateEvent

/-- Predicate selecting `NotifyUpdate` calls. -/
def isNotifyEvent : Event Ctx Cfg → Bool
  | .notifyCall _ _ => true
  | _ => false

/-- `NotifyUpdate` calls of a trace, in order. -/
def notifyEvents (tr : List (Event Ctx Cfg)) : List (Event Ctx Cfg) :=
  tr.filter isNotifyEvent

/-- Configuration carried by a terminal response, if any: only the
success response includes one. -/
def outcomeConfig : Outcome Cfg → Option Cfg
  | .created cfg => some cfg
  | .respondError _ _ => none

/-- Concrete stub converter over `Cfg := String`, used to instantiate the
abstract theorems on concrete runs: it rejects empty content and
otherwise returns a configuration recording which method was called and
with which hint values. -/
def stubConverter : Converter String where
  Convert content :=
    if content = [] then .error "empty content" else .ok "default|petstore"
  ConvertWithOptions content tenant pfx :=
    if content = [] then .error "empty content"
    else .ok (tenant ++ "|" ++ pfx ++ "|petstore")

/-- Stub handler whose store and notifier both succeed
(`Db := Bool`, `Ctx := Nat`, `Cfg := String`). -/
def okHandler : OpenAPI Bool Nat String where
  db := true
  store _ _ := .ok ()
  notifier _ _ := .ok ()

/-- Stub handler whose store fails with a collision error. -/
def collidingHandler : OpenAPI Bool Nat String where
  db := true
  store _ _ := .error "name already exists"
  notifier _ _ := .ok ()

/-- Stub handler whose store succeeds and whose notifier fails. -/
def deafHandler : OpenAPI Bool Nat String where
  db := true
  store _ _ := .ok ()
  notifier _ _ := .error "gateway unreachable"

/-- Sample request with a three-byte file, hint `("acme", "/v1")` and
request context `7`. -/
def sampleRequest : ImportRequest Nat where
  formFile := .ok ⟨"petstore.yaml", 3, .ok (.ok [1, 2, 3])⟩
  tenantId := "acme"
  pathPfx := "/v1"
  requestContext := 7

/-- Sample request with the empty hint. -/
def emptyHintRequest : ImportRequest Nat where
  formFile := .ok ⟨"petstore.yaml", 3, .ok (.ok [1, 2, 3])⟩
  tenantId := ""
  pathPfx := ""
  requestContext := 7

/-- Sample request with hint `("t", "")`: explicit tenant, empty path
value. -/
def tenantOnlyRequest : ImportRequest Nat where
  formFile := .ok ⟨"petstore.yaml", 3, .ok (.ok [1, 2, 3])⟩
  tenantId := "t"
  pathPfx := ""
  requestContext := 7

/-- Sample request whose uploaded file is empty, so conversion is
rejected by `stubConverter`. -/
def emptyFileRequest : ImportRequest Nat where
  formFile := .ok ⟨"empty.yaml", 0, .ok (.ok [])⟩
  tenantId := ""
  pathPfx := ""
  requestContext := 7

/-- Sample request whose announced size is 5 but whose single read
returned only two bytes. -/
def shortReadRequest : ImportRequest Nat where
  formFile := .ok ⟨"big.yaml", 5, .ok (.ok [9, 8])⟩
  tenantId := ""
  pathPfx := ""
  requestContext := 7

/-- Event emitted by the conversion step is a converter call, whichever
branch is taken. -/
theorem conversionEvent_isConverter {Ctx Cfg : Type}
    (content : List Nat) (tenant pfx : String) :
    isConverterEvent (conversionEvent content tenant pfx : Event Ctx Cfg) =
      true := by
  unfold conversionEvent
  split <;> rfl

/-- Helper: a `Create` call is not a converter event. -/
theorem isConverterEvent_create {Ctx Cfg : Type} (ctx : Ctx) (cfg : Cfg) :
    isConverterEvent (Event.createCall ctx cfg) = false := rfl

/-- Helper: a `NotifyUpdate` call is not a converter event. -/
theorem isConverterEvent_notify {Ctx Cfg : Type} (ctx : Ctx) (cfg : Cfg) :
    isConverterEvent (Event.notifyCall ctx cfg) = false := rfl

/-- Event emitted by the conversion step is not a `Create` call. -/
theorem conversionEvent_not_create {Ctx Cfg : Type}
    (content : List Nat) (tenant pfx : String) :
    isCreateEvent (conversionEvent content tenant pfx : Event Ctx Cfg) =
      false := by
  unfold conversionEvent
  split <;> rfl

/-- Event emitted by the conversion step is not a `NotifyUpdate` call. -/
theorem conversionEvent_not_notify {Ctx Cfg : Type}
    (content : List Nat) (tenant pfx : String) :
    isNotifyEvent (conversionEvent content tenant pfx : Event Ctx Cfg) =
      false := by
  unfold conversionEvent
  split <;> rfl

/-- Helper: a `Create` call satisfies the `Create` predicate. -/
theorem isCreateEvent_createCall {Ctx Cfg : Type} (ctx : Ctx) (cfg : Cfg) :
    isCreateEvent (Event.createCall ctx cfg) = true := rfl

/-- Helper: a `NotifyUpdate` call does not satisfy the `Create`
predicate. -/
theorem isCreateEvent_notifyCall {Ctx Cfg : Type} (ctx : Ctx) (cfg : Cfg) :
    isCreateEvent (Event.notifyCall ctx cfg) = false := rfl

/-- Helper: a `Create` call does not satisfy the `NotifyUpdate`
predicate. -/
theorem isNotifyEvent_createCall {Ctx Cfg : Type} (ctx : Ctx) (cfg : Cfg) :
    isNotifyEvent (Event.createCall ctx cfg) = false := rfl

/-- Helper: a `NotifyUpdate` call satisfies the `NotifyUpdate`
predicate. -/
theorem isNotifyEvent_notifyCall {Ctx Cfg : Type} (ctx : Ctx) (cfg : Cfg) :
    isNotifyEvent (Event.notifyCall ctx cfg) = true := rfl

/-- Event emitted by the conversion step is never the database marker. -/
theorem conversionEvent_ne_dbCall {Ctx Cfg : Type}
    (content : List Nat) (tenant pfx : String) :
    (conversionEvent content tenant pfx : Event Ctx Cfg) ≠ Event.dbCall := by
  unfold conversionEvent
  split <;> intro hc <;> cases hc

/-- Reduction of `HandleImport` when form-file retrieval, open and the
single read all succeed: the run is exactly `importPipeline` on the
zero-padded buffer, the two form strings and the request context. -/
theorem HandleImport_read_ok {Db Ctx Cfg : Type} (conv : Converter Cfg)
    (h : OpenAPI Db Ctx Cfg) (req : ImportRequest Ctx) (file : FormFile)
    (chunk : List Nat) (hfile : req.formFile = .ok file)
    (hopen : file.openResult = .ok (.ok chunk)) :
    HandleImport conv h req =
      importPipeline conv h (readIntoBuffer file.Size chunk)
        req.tenantId req.pathPfx req.requestContext := by
  rcases req with ⟨ff, t, p, ctx⟩
  dsimp at hfile ⊢
  subst hfile
  rcases file with ⟨fn, sz, orr⟩
  dsimp at hopen ⊢
  subst hopen
  rfl

/-- Helper: whatever the store and notifier do, the trace of the
pipeline contains exactly one converter call, the conversion-step
event. -/
theorem importPipeline_converterEvents {Db Ctx Cfg : Type}
    (conv : Converter Cfg) (h : OpenAPI Db Ctx Cfg) (content : List Nat)
    (tenant pfx : String) (ctx : Ctx) :
    converterEvents (importPipeline conv h content tenant pfx ctx).2 =
      [conversionEvent content tenant pfx] := by
  unfold importPipeline
  rcases hc : conversionResult conv content tenant pfx with e | cfg
  · simp [hc, converterEvents, conversionEvent_isConverter]
  · rcases hs : h.store ctx cfg with e | u
    · simp [hc, hs, converterEvents, conversionEvent_isConverter,
        isConverterEvent_create, isConverterEvent_notify]
    · rcases hn : h.notifier ctx cfg with e | u <;>
        simp [hc, hs, hn, converterEvents, conversionEvent_isConverter,
          isConverterEvent_create, isConverterEvent_notify]

/-- C1: for every import request that reaches conversion, the workflow
calls `Convert(content)` exactly when both the tenant hint and the
prefix hint are empty, and otherwise calls
`ConvertWithOptions(content, tenant, prefix)` with both hint strings
passed verbatim; in particular hint `("t", "")` passes the empty prefix
string through literally. -/
theorem converter_call_choice {Db Ctx Cfg : Type} (conv : Converter Cfg)
    (h : OpenAPI Db Ctx Cfg) (req : ImportRequest Ctx) (file : FormFile)
    (chunk : List Nat) (hfile : req.formFile = .ok file)
    (hopen : file.openResult = .ok (.ok chunk)) :
    converterEvents (HandleImport conv h req).2 =
      (if req.tenantId = "" ∧ req.pathPfx = "" then
        [Event.convertCall (readIntoBuffer file.Size chunk)]
      else
        [Event.convertWithOptionsCall (readIntoBuffer file.Size chunk)
          req.tenantId req.pathPfx]) := by
  rw [HandleImport_read_ok conv h req file chunk hfile hopen,
    importPipeline_converterEvents]
  unfold conversionEvent
  split <;> rfl

/-- C1 witness: with hint `("t", "")` on a concrete request, the single
converter call is `ConvertWithOptions` with tenant `"t"` and the empty
prefix string verbatim. -/
theorem converter_call_choice_witness :
    tenantOnlyRequest.formFile =
        .ok ⟨"petstore.yaml", 3, .ok (.ok [1, 2, 3])⟩ ∧
    converterEvents
        (HandleImport stubConverter okHandler tenantOnlyRequest).2 =
      (if tenantOnlyRequest.tenantId = "" ∧ tenantOnlyRequest.pathPfx = ""
       then [Event.convertCall (readIntoBuffer 3 [1, 2, 3])]
       else [Event.convertWithOptionsCall (readIntoBuffer 3 [1, 2, 3])
              tenantOnlyRequest.tenantId tenantOnlyRequest.pathPfx]) :=
  ⟨rfl, converter_call_choice stubConverter okHandler tenantOnlyRequest
    ⟨"petstore.yaml", 3, .ok (.ok [1, 2, 3])⟩ [1, 2, 3] rfl rfl⟩

/-- C2: when conversion fails, the run terminates with the bad-request
rejection carrying the conversion failure reason, and the trace contains
no `Create` call and no `NotifyUpdate` call. -/
theorem rejected_no_side_effects {Db Ctx Cfg : Type} (conv : Converter Cfg)
    (h : OpenAPI Db Ctx Cfg) (req : ImportRequest Ctx) (file : FormFile)
    (chunk : List Nat) (e : String) (hfile : req.formFile = .ok file)
    (hopen : file.openResult = .ok (.ok chunk))
    (hconv : conversionResult conv (readIntoBuffer file.Size chunk)
        req.tenantId req.pathPfx = .error e) :
    (HandleImport conv h req).1 =
        .respondError .badRequest
          ("Failed to convert OpenAPI specification: " ++ e) ∧
    createEvents (HandleImport conv h req).2 = [] ∧
    notifyEvents (HandleImport conv h req).2 = [] := by
  rw [HandleImport_read_ok conv h req file chunk hfile hopen]
  unfold importPipeline
  rw [hconv]
  refine ⟨rfl, ?_, ?_⟩ <;>
    simp [createEvents, notifyEvents, List.filter,
      conversionEvent_not_create, conversionEvent_not_notify]

/-- C2 witness: the empty uploaded file is rejected by the stub converter
and neither the store nor the notifier is called. -/
theorem rejected_no_side_effects_witness :
    conversionResult stubConverter (readIntoBuffer 0 []) "" "" =
        .error "empty content" ∧
    ((HandleImport stubConverter okHandler emptyFileRequest).1 =
        .respondError .badRequest
          ("Failed to convert OpenAPI specification: " ++ "empty content") ∧
      createEvents (HandleImport stubConverter okHandler emptyFileRequest).2
        = [] ∧
      notifyEvents (HandleImport stubConverter okHandler emptyFileRequest).2
        = []) :=
  ⟨rfl, rejected_no_side_effects stubConverter okHandler emptyFileRequest
    ⟨"empty.yaml", 0, .ok (.ok [])⟩ [] "empty content" rfl rfl rfl⟩

/-- C3 counterexample: on a concrete run where `Create` succeeded and
`NotifyUpdate` failed, the terminal response is the internal-server
error with the notification reason only — it carries no configuration,
although the persisted configuration was `"default|petstore"`.  The
claim that the notification-failure outcome carries the persisted
Configuration is therefore false on the code. -/
theorem notification_failure_drops_config_cex :
    createEvents (HandleImport stubConverter deafHandler emptyHintRequest).2
        = [Event.createCall 7 "default|petstore"] ∧
    (HandleImport stubConverter deafHandler emptyHintRequest).1 =
        .respondError .internalServer
          "Failed to notify gateway: gateway unreachable" ∧
    outcomeConfig (HandleImport stubConverter deafHandler emptyHintRequest).1
        ≠ some "default|petstore" := by
  refine ⟨rfl, rfl, ?_⟩
  decide

/-- C3 amended: when `Create` succeeds and `NotifyUpdate` fails, the run
terminates with the internal-server error response carrying the
notification failure reason; the response does not carry the persisted
configuration, and no store operation follows the failed notification —
the trace ends with the single `Create` call followed by the single
`NotifyUpdate` call, so the persisted configuration is not rolled
back. -/
theorem notification_failure_no_rollback {Db Ctx Cfg : Type}
    (conv : Converter Cfg) (h : OpenAPI Db Ctx Cfg)
    (req : ImportRequest Ctx) (file : FormFile) (chunk : List Nat)
    (cfg : Cfg) (e : String) (hfile : req.formFile = .ok file)
    (hopen : file.openResult = .ok (.ok chunk))
    (hconv : conversionResult conv (readIntoBuffer file.Size chunk)
        req.tenantId req.pathPfx = .ok cfg)
    (hstore : h.store req.requestContext cfg = .ok ())
    (hnotify : h.notifier req.requestContext cfg = .error e) :
    (HandleImport conv h req).1 =
        .respondError .internalServer ("Failed to notify gateway: " ++ e) ∧
    outcomeConfig (HandleImport conv h req).1 = none ∧
    (HandleImport conv h req).2 =
        [conversionEvent (readIntoBuffer file.Size chunk)
           req.tenantId req.pathPfx,
         Event.createCall req.requestContext cfg,
         Event.notifyCall req.requestContext cfg] := by
  rw [HandleImport_read_ok conv h req file chunk hfile hopen]
  unfold importPipeline
  simp [hconv, hstore, hnotify, outcomeConfig]

/-- C3 amended witness: concrete run with a succeeding store and a
failing notifier. -/
theorem notification_failure_no_rollback_witness :
    (conversionResult stubConverter (readIntoBuffer 3 [1, 2, 3]) "" "" =
        .ok "default|petstore" ∧
      deafHandler.store 7 "default|petstore" = .ok () ∧
      deafHandler.notifier 7 "default|petstore" =
        .error "gateway unreachable") ∧
    ((HandleImport stubConverter deafHandler emptyHintRequest).1 =
        .respondError .internalServer
          ("Failed to notify gateway: " ++ "gateway unreachable") ∧
      outcomeConfig
          (HandleImport stubConverter deafHandler emptyHintRequest).1 =
        none ∧
      (HandleImport stubConverter deafHandler emptyHintRequest).2 =
        [conversionEvent (readIntoBuffer 3 [1, 2, 3]) "" "",
         Event.createCall 7 "default|petstore",
         Event.notifyCall 7 "default|petstore"]) :=
  ⟨⟨rfl, rfl, rfl⟩,
   notification_failure_no_rollback stubConverter deafHandler
     emptyHintRequest ⟨"petstore.yaml", 3, .ok (.ok [1, 2, 3])⟩ [1, 2, 3]
     "default|petstore" "gateway unreachable" rfl rfl rfl rfl rfl⟩

/-- C4: when conversion succeeds and `Create` fails, the run terminates
with the internal-server (server-side) error carrying the store failure
reason, `NotifyUpdate` is never called, and the trace is exactly the one
converter call followed by the one failed `Create` call — the conversion
result is discarded with no retry. -/
theorem persistence_failure_stops {Db Ctx Cfg : Type}
    (conv : Converter Cfg) (h : OpenAPI Db Ctx Cfg)
    (req : ImportRequest Ctx) (file : FormFile) (chunk : List Nat)
    (cfg : Cfg) (e : String) (hfile : req.formFile = .ok file)
    (hopen : file.openResult = .ok (.ok chunk))
    (hconv : conversionResult conv (readIntoBuffer file.Size chunk)
        req.tenantId req.pathPfx = .ok cfg)
    (hstore : h.store req.requestContext cfg = .error e) :
    (HandleImport conv h req).1 =
        .respondError .internalServer ("Failed to create MCP server: " ++ e) ∧
    notifyEvents (HandleImport conv h req).2 = [] ∧
    (HandleImport conv h req).2 =
        [conversionEvent (readIntoBuffer file.Size chunk)
           req.tenantId req.pathPfx,
         Event.createCall req.requestContext cfg] := by
  rw [HandleImport_read_ok conv h req file chunk hfile hopen]
  unfold importPipeline
  simp [hconv, hstore, notifyEvents, conversionEvent_not_notify,
    isNotifyEvent_createCall]

/-- C4 witness: concrete run with a store that fails on every name. -/
theorem persistence_failure_stops_witness :
    (conversionResult stubConverter (readIntoBuffer 3 [1, 2, 3])
          "acme" "/v1" = .ok "acme|/v1|petstore" ∧
      collidingHandler.store 7 "acme|/v1|petstore" =
        .error "name already exists") ∧
    ((HandleImport stubConverter collidingHandler sampleRequest).1 =
        .respondError .internalServer
          ("Failed to create MCP server: " ++ "name already exists") ∧
      notifyEvents
          (HandleImport stubConverter collidingHandler sampleRequest).2 =
        [] ∧
      (HandleImport stubConverter collidingHandler sampleRequest).2 =
        [conversionEvent (readIntoBuffer 3 [1, 2, 3]) "acme" "/v1",
         Event.createCall 7 "acme|/v1|petstore"]) :=
  ⟨⟨rfl, rfl⟩,
   persistence_failure_stops stubConverter collidingHandler sampleRequest
     ⟨"petstore.yaml", 3, .ok (.ok [1, 2, 3])⟩ [1, 2, 3]
     "acme|/v1|petstore" "name already exists" rfl rfl rfl rfl⟩

/-- C5: when conversion, `Create` and `NotifyUpdate` all succeed, the run
returns the success response carrying the converted configuration, and
the trace is exactly one converter call, then one `Create` call, then
one `NotifyUpdate` call, in that order, all on the same
configuration. -/
theorem import_success_shape {Db Ctx Cfg : Type}
    (conv : Converter Cfg) (h : OpenAPI Db Ctx Cfg)
    (req : ImportRequest Ctx) (file : FormFile) (chunk : List Nat)
    (cfg : Cfg) (hfile : req.formFile = .ok file)
    (hopen : file.openResult = .ok (.ok chunk))
    (hconv : conversionResult conv (readIntoBuffer file.Size chunk)
        req.tenantId req.pathPfx = .ok cfg)
    (hstore : h.store req.requestContext cfg = .ok ())
    (hnotify : h.notifier req.requestContext cfg = .ok ()) :
    (HandleImport conv h req).1 = .created cfg ∧
    (HandleImport conv h req).2 =
        [conversionEvent (readIntoBuffer file.Size chunk)
           req.tenantId req.pathPfx,
         Event.createCall req.requestContext cfg,
         Event.notifyCall req.requestContext cfg] ∧
    createEvents (HandleImport conv h req).2 =
        [Event.createCall req.requestContext cfg] ∧
    notifyEvents (HandleImport conv h req).2 =
        [Event.notifyCall req.requestContext cfg] := by
  rw [HandleImport_read_ok conv h req file chunk hfile hopen]
  unfold importPipeline
  simp [hconv, hstore, hnotify, createEvents, notifyEvents,
    conversionEvent_not_create, conversionEvent_not_notify,
    isCreateEvent_createCall, isCreateEvent_notifyCall,
    isNotifyEvent_createCall, isNotifyEvent_notifyCall]

/-- C5 witness: end-to-end success with hint `("acme", "/v1")`; the
configuration carries both hint values and the store and notifier are
each called exactly once, in order. -/
theorem import_success_shape_witness :
    (conversionResult stubConverter (readIntoBuffer 3 [1, 2, 3])
          "acme" "/v1" = .ok "acme|/v1|petstore" ∧
      okHandler.store 7 "acme|/v1|petstore" = .ok () ∧
      okHandler.notifier 7 "acme|/v1|petstore" = .ok ()) ∧
    ((HandleImport stubConverter okHandler sampleRequest).1 =
        .created "acme|/v1|petstore" ∧
      (HandleImport stubConverter okHandler sampleRequest).2 =
        [conversionEvent (readIntoBuffer 3 [1, 2, 3]) "acme" "/v1",
         Event.createCall 7 "acme|/v1|petstore",
         Event.notifyCall 7 "acme|/v1|petstore"] ∧
      createEvents (HandleImport stubConverter okHandler sampleRequest).2 =
        [Event.createCall 7 "acme|/v1|petstore"] ∧
      notifyEvents (HandleImport stubConverter okHandler sampleRequest).2 =
        [Event.notifyCall 7 "acme|/v1|petstore"]) :=
  ⟨⟨rfl, rfl, rfl⟩,
   import_success_shape stubConverter okHandler sampleRequest
     ⟨"petstore.yaml", 3, .ok (.ok [1, 2, 3])⟩ [1, 2, 3]
     "acme|/v1|petstore" rfl rfl rfl rfl rfl⟩

/-- Helper: a `Create` call is never the conversion-step event. -/
theorem createCall_ne_conversionEvent {Ctx Cfg : Type} (ctx2 : Ctx)
    (c : Cfg) (content : List Nat) (tenant pfx : String) :
    Event.createCall ctx2 c ≠ conversionEvent content tenant pfx := by
  unfold conversionEvent
  split <;> intro hc <;> cases hc

/-- Helper: a `NotifyUpdate` call is never the conversion-step event. -/
theorem notifyCall_ne_conversionEvent {Ctx Cfg : Type} (ctx2 : Ctx)
    (c : Cfg) (content : List Nat) (tenant pfx : String) :
    Event.notifyCall ctx2 c ≠ conversionEvent content tenant pfx := by
  unfold conversionEvent
  split <;> intro hc <;> cases hc

/-- Helper: the database marker is never the conversion-step event. -/
theorem dbCall_ne_conversionEvent {Ctx Cfg : Type} (content : List Nat)
    (tenant pfx : String) :
    (Event.dbCall : Event Ctx Cfg) ≠ conversionEvent content tenant pfx := by
  unfold conversionEvent
  split <;> intro hc <;> cases hc

/-- C6: the configuration produced by the Converter is never mutated by
the workflow: whenever conversion yields `cfg`, the trace is exactly the
converter call followed by a `Create` call on `cfg` (and possibly a
`NotifyUpdate` call on the same `cfg`), and the terminal response
carries either no configuration or exactly `cfg`. -/
theorem config_not_mutated {Db Ctx Cfg : Type} (conv : Converter Cfg)
    (h : OpenAPI Db Ctx Cfg) (req : ImportRequest Ctx) (file : FormFile)
    (chunk : List Nat) (cfg : Cfg) (hfile : req.formFile = .ok file)
    (hopen : file.openResult = .ok (.ok chunk))
    (hconv : conversionResult conv (readIntoBuffer file.Size chunk)
        req.tenantId req.pathPfx = .ok cfg) :
    ((HandleImport conv h req).2 =
        [conversionEvent (readIntoBuffer file.Size chunk)
           req.tenantId req.pathPfx,
         Event.createCall req.requestContext cfg] ∨
      (HandleImport conv h req).2 =
        [conversionEvent (readIntoBuffer file.Size chunk)
           req.tenantId req.pathPfx,
         Event.createCall req.requestContext cfg,
         Event.notifyCall req.requestContext cfg]) ∧
    (outcomeConfig (HandleImport conv h req).1 = none ∨
      outcomeConfig (HandleImport conv h req).1 = some cfg) := by
  rw [HandleImport_read_ok conv h req file chunk hfile hopen]
  unfold importPipeline
  rcases hs : h.store req.requestContext cfg with e | u
  · simp [hconv, hs, outcomeConfig]
  · rcases hn : h.notifier req.requestContext cfg with e | u <;>
      simp [hconv, hs, hn, outcomeConfig]

/-- C6 witness: concrete fully successful run; the trace carries the
converted configuration unchanged in the `Create` call, the
`NotifyUpdate` call and the success response. -/
theorem config_not_mutated_witness :
    conversionResult stubConverter (readIntoBuffer 3 [1, 2, 3])
        "acme" "/v1" = .ok "acme|/v1|petstore" ∧
    (((HandleImport stubConverter okHandler sampleRequest).2 =
        [conversionEvent (readIntoBuffer 3 [1, 2, 3]) "acme" "/v1",
         Event.createCall 7 "acme|/v1|petstore"] ∨
      (HandleImport stubConverter okHandler sampleRequest).2 =
        [conversionEvent (readIntoBuffer 3 [1, 2, 3]) "acme" "/v1",
         Event.createCall 7 "acme|/v1|petstore",
         Event.notifyCall 7 "acme|/v1|petstore"]) ∧
      (outcomeConfig (HandleImport stubConverter okHandler sampleRequest).1
          = none ∨
        outcomeConfig (HandleImport stubConverter okHandler sampleRequest).1
          = some "acme|/v1|petstore")) :=
  ⟨rfl, config_not_mutated stubConverter okHandler sampleRequest
    ⟨"petstore.yaml", 3, .ok (.ok [1, 2, 3])⟩ [1, 2, 3]
    "acme|/v1|petstore" rfl rfl rfl⟩

/-- C7: every `Create` call and every `NotifyUpdate` call in the trace
of a run carries exactly the request context of the caller — the
workflow passes `c.Request.Context()` through unchanged and introduces
no derived context. -/
theorem context_passed_unchanged {Db Ctx Cfg : Type} (conv : Converter Cfg)
    (h : OpenAPI Db Ctx Cfg) (req : ImportRequest Ctx) (ctx2 : Ctx)
    (c : Cfg)
    (hmem : Event.createCall ctx2 c ∈ (HandleImport conv h req).2 ∨
      Event.notifyCall ctx2 c ∈ (HandleImport conv h req).2) :
    ctx2 = req.requestContext := by
  rcases req with ⟨ff, t, p, ctx⟩
  show ctx2 = ctx
  rcases ff with e | file
  · simp [HandleImport] at hmem
  · rcases file with ⟨fn, sz, orr⟩
    rcases orr with e | rr
    · simp [HandleImport] at hmem
    · rcases rr with e | chunk
      · simp [HandleImport] at hmem
      · rw [HandleImport_read_ok conv h
          ⟨.ok ⟨fn, sz, .ok (.ok chunk)⟩, t, p, ctx⟩
          ⟨fn, sz, .ok (.ok chunk)⟩ chunk rfl rfl] at hmem
        unfold importPipeline at hmem
        rcases hc : conversionResult conv (readIntoBuffer sz chunk) t p
            with e | cfg
        · simp [hc, createCall_ne_conversionEvent,
            notifyCall_ne_conversionEvent] at hmem
        · rcases hs : h.store ctx cfg with e | u
          · simp [hc, hs, createCall_ne_conversionEvent,
              notifyCall_ne_conversionEvent] at hmem
            exact hmem.1
          · rcases hn : h.notifier ctx cfg with e | u <;>
              simp [hc, hs, hn, createCall_ne_conversionEvent,
                notifyCall_ne_conversionEvent] at hmem <;>
              exact hmem.1

/-- C7 witness: in the concrete successful run, the `Create` call in the
trace carries context `7`, the request context of `sampleRequest`. -/
theorem context_passed_unchanged_witness :
    (Event.createCall 7 "acme|/v1|petstore" ∈
        (HandleImport stubConverter okHandler sampleRequest).2 ∨
      Event.notifyCall 7 "acme|/v1|petstore" ∈
        (HandleImport stubConverter okHandler sampleRequest).2) ∧
    (7 : Nat) = sampleRequest.requestContext :=
  ⟨Or.inl (by decide),
   context_passed_unchanged stubConverter okHandler sampleRequest 7
     "acme|/v1|petstore" (Or.inl (by decide))⟩

/-- C8: rejection is deterministic — two runs on requests that agree on
the buffer contents and on both hint strings, through any two handlers,
both terminate with the same bad-request rejection carrying the same
conversion failure reason. -/
theorem rejection_deterministic {Db Ctx Cfg : Type} (conv : Converter Cfg)
    (h1 h2 : OpenAPI Db Ctx Cfg) (req1 req2 : ImportRequest Ctx)
    (file1 file2 : FormFile) (chunk1 chunk2 : List Nat) (e : String)
    (hf1 : req1.formFile = .ok file1)
    (ho1 : file1.openResult = .ok (.ok chunk1))
    (hf2 : req2.formFile = .ok file2)
    (ho2 : file2.openResult = .ok (.ok chunk2))
    (hcontent : readIntoBuffer file1.Size chunk1 =
      readIntoBuffer file2.Size chunk2)
    (ht : req1.tenantId = req2.tenantId)
    (hp : req1.pathPfx = req2.pathPfx)
    (hconv : conversionResult conv (readIntoBuffer file1.Size chunk1)
        req1.tenantId req1.pathPfx = .error e) :
    (HandleImport conv h1 req1).1 = (HandleImport conv h2 req2).1 ∧
    (HandleImport conv h1 req1).1 =
      .respondError .badRequest
        ("Failed to convert OpenAPI specification: " ++ e) := by
  rw [HandleImport_read_ok conv h1 req1 file1 chunk1 hf1 ho1,
    HandleImport_read_ok conv h2 req2 file2 chunk2 hf2 ho2,
    ← hcontent, ← ht, ← hp]
  unfold importPipeline
  simp [hconv]

/-- C8 witness: the same empty malformed file rejected twice, through a
handler with a working notifier and one with a failing notifier, gives
the same rejection reason. -/
theorem rejection_deterministic_witness :
    (conversionResult stubConverter (readIntoBuffer 0 []) "" "" =
        .error "empty content") ∧
    ((HandleImport stubConverter okHandler emptyFileRequest).1 =
        (HandleImport stubConverter deafHandler
          ⟨.ok ⟨"other.yaml", 0, .ok (.ok [])⟩, "", "", 9⟩).1 ∧
      (HandleImport stubConverter okHandler emptyFileRequest).1 =
        .respondError .badRequest
          ("Failed to convert OpenAPI specification: " ++
            "empty content")) :=
  ⟨rfl, rejection_deterministic stubConverter okHandler deafHandler
    emptyFileRequest ⟨.ok ⟨"other.yaml", 0, .ok (.ok [])⟩, "", "", 9⟩
    ⟨"empty.yaml", 0, .ok (.ok [])⟩ ⟨"other.yaml", 0, .ok (.ok [])⟩
    [] [] "empty content" rfl rfl rfl rfl rfl rfl rfl rfl⟩

/-- C9: the buffer handed to the Converter always has length equal to
the announced file size and is filled by the single read; when the one
read returned fewer bytes than the announced size without an error, the
remainder of the buffer stays zero-filled and the truncated,
zero-padded buffer is still passed to conversion rather than being
rejected. -/
theorem single_read_buffer {Db Ctx Cfg : Type} (conv : Converter Cfg)
    (h : OpenAPI Db Ctx Cfg) (req : ImportRequest Ctx) (file : FormFile)
    (chunk : List Nat) (hfile : req.formFile = .ok file)
    (hopen : file.openResult = .ok (.ok chunk))
    (hlen : chunk.length ≤ file.Size) :
    (readIntoBuffer file.Size chunk).length = file.Size ∧
    (readIntoBuffer file.Size chunk).drop chunk.length =
      List.replicate (file.Size - chunk.length) 0 ∧
    converterEvents (HandleImport conv h req).2 =
      [conversionEvent (readIntoBuffer file.Size chunk)
        req.tenantId req.pathPfx] := by
  refine ⟨?_, ?_, ?_⟩
  · simp [readIntoBuffer]
    omega
  · unfold readIntoBuffer
    rw [List.take_of_length_le hlen, List.drop_left]
  · rw [HandleImport_read_ok conv h req file chunk hfile hopen,
      importPipeline_converterEvents]

/-- C9 witness: announced size 5, single read returned only `[9, 8]`;
the converter receives the five-byte zero-padded buffer. -/
theorem single_read_buffer_witness :
    ([9, 8] : List Nat).length ≤ 5 ∧
    ((readIntoBuffer 5 [9, 8]).length = 5 ∧
      (readIntoBuffer 5 [9, 8]).drop 2 = List.replicate 3 0 ∧
      converterEvents
          (HandleImport stubConverter okHandler shortReadRequest).2 =
        [conversionEvent (readIntoBuffer 5 [9, 8]) "" ""]) :=
  ⟨by decide,
   single_read_buffer stubConverter okHandler shortReadRequest
     ⟨"big.yaml", 5, .ok (.ok [9, 8])⟩ [9, 8] rfl rfl (by decide)⟩

/-- C10: the injected database dependency is never used by
`HandleImport`: the run is unchanged when the database is replaced, and
no trace on any path contains the database-call marker. -/
theorem db_not_used {Db Ctx Cfg : Type} (conv : Converter Cfg)
    (db1 db2 : Db) (st ntf : Ctx → Cfg → Except String Unit)
    (req : ImportRequest Ctx) :
    HandleImport conv ⟨db1, st, ntf⟩ req =
      HandleImport conv ⟨db2, st, ntf⟩ req ∧
    Event.dbCall ∉ (HandleImport conv ⟨db1, st, ntf⟩ req).2 := by
  constructor
  · rfl
  · rcases req with ⟨ff, t, p, ctx⟩
    rcases ff with e | file
    · simp [HandleImport]
    · rcases file with ⟨fn, sz, orr⟩
      rcases orr with e | rr
      · simp [HandleImport]
      · rcases rr with e | chunk
        · simp [HandleImport]
        · rw [HandleImport_read_ok conv ⟨db1, st, ntf⟩
            ⟨.ok ⟨fn, sz, .ok (.ok chunk)⟩, t, p, ctx⟩
            ⟨fn, sz, .ok (.ok chunk)⟩ chunk rfl rfl]
          unfold importPipeline
          rcases hc : conversionResult conv (readIntoBuffer sz chunk) t p
              with e | cfg
          · simp [hc, dbCall_ne_conversionEvent]
          · rcases hs : st ctx cfg with e | u
            · simp [hc, hs, dbCall_ne_conversionEvent]
            · rcases hn : ntf ctx cfg with e | u <;>
                simp [hc, hs, hn, dbCall_ne_conversionEvent]
